import Mathlib

/-!
Verification of the incident-tracking CRUD service (cloud_api).

Shallow embedding of the Python Lambda handlers and their shared helpers:
  * `shared/utils.py`    — `build_response`, `parse_json_body`, `is_options_request`
  * `shared/dynamodb.py` — `put_incident_item`, `get_incident_item`,
                           `scan_incidents`, `update_incident_status`
  * `create_incident/handler.py`, `get_incident/handler.py`,
    `list_incidents/handler.py`, `update_incident/handler.py`,
    `health_check/handler.py` — the five `lambda_handler` functions.

Modelling conventions:
  * JSON values are the inductive `JValue`; a JSON object / Python dict is an
    association list `List (String × JValue)` with first-match lookup.
  * The DynamoDB table is `Store := List (String × Item)` keyed by
    `incident_id`.  The conditional-write semantics that the adapter requests
    from DynamoDB (`attribute_not_exists` / `attribute_exists`,
    `UpdateExpression "SET #s = :s, updated_at = :u"`, `ReturnValues ALL_NEW`)
    are encoded directly in the pure operations below.
  * Exogenous collaborator failures (throttling, networking, SNS outages)
    are injected through explicit `Option String` fault parameters carrying
    the `str(exc)` detail; `none` means the collaborator call succeeds.
    A `ConditionalCheckFailedException` is the one failure produced by the
    store semantics itself (`DBError.conditionalCheckFailed`).
  * Fresh UUIDs and `datetime.now(timezone.utc).isoformat()` timestamps are
    nondeterministic inputs, passed to the handlers as explicit arguments.
  * `str.strip()` is embedded as `pyStrip` (strip ASCII whitespace from
    both ends), defined by structural recursion so it computes by `rfl`.
  * The raw HTTP body (including the base64 transport) is abstracted to
    `RawBody`: absent, present-but-not-JSON, or a parsed JSON object.
-/

/-- A JSON value (the subset of shapes the service manipulates). -/
inductive JValue where
  | str (s : String)
  | num (n : Int)
  | bool (b : Bool)
  | null
  | arr (elems : List JValue)
  | obj (fields : List (String × JValue))

/-- A JSON object / Python dict: association list with first-match lookup. -/
abbrev JObj := List (String × JValue)

/-- A DynamoDB item (`Dict[str, Any]` in the source). -/
abbrev Item := JObj

/-- The incidents table: items keyed by their `incident_id`. -/
abbrev Store := List (String × Item)

/-- First-match association-list lookup (Python `dict.get` / `d[k]`). -/
def alookup {α : Type} : List (String × α) → String → Option α
  | [], _ => none
  | (k, v) :: rest, key => if k = key then some v else alookup rest key

/-- Python `k in d` on a dict. -/
def hasKey {α : Type} (m : List (String × α)) (k : String) : Bool :=
  (alookup m k).isSome

/-- Attribute read on an item. -/
def getAttr (item : Item) (k : String) : Option JValue :=
  alookup item k

/-- DynamoDB `SET k = v`: overwrite the attribute if present, else append it. -/
def setAttr : Item → String → JValue → Item
  | [], k, v => [(k, v)]
  | (k', v') :: rest, k, v =>
    if k' = k then (k, v) :: rest else (k', v') :: setAttr rest k v

/-- Replace the item stored under `id` (first matching entry). -/
def replaceEntry : Store → String → Item → Store
  | [], _, _ => []
  | (k, it) :: rest, id, newIt =>
    if k = id then (id, newIt) :: rest else (k, it) :: replaceEntry rest id newIt

/-- Failures surfaced by the store collaborator as `botocore ClientError`s. -/
inductive DBError where
  | conditionalCheckFailed
  | clientError (detail : String)

/-- The `str(exc)` detail string of a store failure.  For a conditional-check
failure boto3's message names the exception code; we keep just the code. -/
def DBError.detail : DBError → String
  | .conditionalCheckFailed => "ConditionalCheckFailedException"
  | .clientError d => d

/-- `shared/dynamodb.py::put_incident_item`: conditional put with
`ConditionExpression="attribute_not_exists(incident_id)"`.  The table key is
the item's `incident_id` attribute. -/
def put_incident_item (item : Item) (s : Store) : Except DBError Store :=
  match getAttr item "incident_id" with
  | some (.str id) =>
    match alookup s id with
    | some _ => .error .conditionalCheckFailed
    | none => .ok ((id, item) :: s)
  | _ => .error (.clientError "ValidationException: missing key incident_id")

/-- `shared/dynamodb.py::get_incident_item`: `get_item` then
`response.get("Item")`, i.e. `none` when absent. -/
def get_incident_item (incident_id : String) (s : Store) : Option Item :=
  alookup s incident_id

/-- The accumulation loop inside `scan_incidents`: repeatedly `scan`, extend
`items` with the returned page, follow `LastEvaluatedKey` until exhausted.
The store-side paging is the page list; the last page carries no token. -/
def scanLoop : List (List Item) → List Item → List Item
  | [], acc => acc
  | page :: rest, acc => scanLoop rest (acc ++ page)

/-- `shared/dynamodb.py::scan_incidents`: follow pagination to the end,
starting from an empty accumulator. -/
def scan_incidents (pages : List (List Item)) : List Item :=
  scanLoop pages []

/-- One store-side paging of a record list into pages of size `n + 1`
(every positive page size arises this way). -/
def paginate {α : Type} (n : Nat) : List α → List (List α)
  | [] => []
  | x :: xs => (x :: xs).take (n + 1) :: paginate n ((x :: xs).drop (n + 1))
termination_by l => l.length
decreasing_by simp; omega

/-- `shared/dynamodb.py::update_incident_status`: `update_item` with
`UpdateExpression="SET #s = :s, updated_at = :u"`,
`ConditionExpression="attribute_exists(incident_id)"`, `ReturnValues=ALL_NEW`.
Fails with a conditional-check error when the id is absent; otherwise returns
`ALL_NEW` (the full updated item) next to the updated table. -/
def update_incident_status (incident_id status updated_at : String) (s : Store) :
    Except DBError (Item × Store) :=
  match alookup s incident_id with
  | none => .error .conditionalCheckFailed
  | some item =>
    let newItem := setAttr (setAttr item "status" (.str status)) "updated_at" (.str updated_at)
    .ok (newItem, replaceEntry s incident_id newItem)

/-- The inbound body of an API Gateway event, as seen by `parse_json_body`:
absent (`body is None`), present but not decodable to JSON (covering the
base64 transport's failures as well), or a parsed JSON object. -/
inductive RawBody where
  | missing
  | malformed
  | json (payload : JObj)

/-- An API Gateway REST proxy event (the fields the handlers consult). -/
structure Event where
  httpMethod : Option String
  pathParameters : Option (List (String × String))
  body : RawBody

/-- `shared/utils.py::build_response`: fixed CORS headers, JSON body. -/
def corsHeaders : List (String × String) :=
  [("Content-Type", "application/json"),
   ("Access-Control-Allow-Origin", "*"),
   ("Access-Control-Allow-Methods", "OPTIONS,GET,POST,PATCH,PUT,DELETE"),
   ("Access-Control-Allow-Headers", "Content-Type,Authorization")]

/-- An API Gateway REST proxy response.  `body` is the structured JSON dict
that `json.dumps` serializes; `body = []` is the empty object `{}` used when
no body is supplied. -/
structure Response where
  statusCode : Nat
  headers : List (String × String)
  body : JObj
  isBase64Encoded : Bool

/-- `shared/utils.py::build_response` (`body=None` becomes `[]` here). -/
def build_response (statusCode : Nat) (body : JObj) : Response :=
  ⟨statusCode, corsHeaders, body, false⟩

/-- `shared/utils.py::parse_json_body`: `ValueError` messages are surfaced as
`Except.error`. -/
def parse_json_body (event : Event) : Except String JObj :=
  match event.body with
  | .missing => .error "Request body is required"
  | .malformed => .error "Request body must be valid JSON"
  | .json payload => .ok payload

/-- `shared/utils.py::is_options_request`. -/
def is_options_request (event : Event) : Bool :=
  event.httpMethod == some "OPTIONS"

/-- Python `str.strip()`: drop whitespace from both ends. -/
def pyStrip (s : String) : String :=
  ⟨((s.data.dropWhile Char.isWhitespace).reverse.dropWhile Char.isWhitespace).reverse⟩

/-- The string inside a JSON string value; `""` for other shapes (only
applied where validation has already guaranteed a string). -/
def jStrOrEmpty : Option JValue → String
  | some (.str s) => s
  | _ => ""

/-- Python `isinstance(v, str) and v.strip()` truthiness. -/
def isNonEmptyStr : Option JValue → Bool
  | some (.str s) => !(pyStrip s).isEmpty
  | _ => false

/-- `payload.get("severity") in {"low", "medium", "high", "critical"}`. -/
def isAllowedSeverity : Option JValue → Bool
  | some (.str s) => ["low", "medium", "high", "critical"].contains s
  | _ => false

/-- `payload.get("status") in {"open", "in_progress", "resolved", "closed"}`. -/
def isAllowedStatus : Option JValue → Bool
  | some (.str s) => ["open", "in_progress", "resolved", "closed"].contains s
  | _ => false

/-- Python `isinstance(v, list)`. -/
def isJList : Option JValue → Bool
  | some (.arr _) => true
  | _ => false

/-- `create_incident/handler.py::_validate_payload`: `none` when valid,
`some errorBody` when invalid (mirrors the `(is_valid, error_body)` pair). -/
def create_validate_payload (payload : JObj) : Option JObj :=
  let missing := ["title", "description", "severity", "reported_by"].filter
      (fun f => !hasKey payload f)
  if !missing.isEmpty then
    some [("error", .str "ValidationError"),
          ("message", .str ("Missing fields: " ++ String.intercalate ", " missing))]
  else if !isNonEmptyStr (alookup payload "title") then
    some [("error", .str "ValidationError"),
          ("message", .str "title must be a non-empty string")]
  else if !isNonEmptyStr (alookup payload "description") then
    some [("error", .str "ValidationError"),
          ("message", .str "description must be a non-empty string")]
  else if !isNonEmptyStr (alookup payload "reported_by") then
    some [("error", .str "ValidationError"),
          ("message", .str "reported_by must be a non-empty string")]
  else if !isAllowedSeverity (alookup payload "severity") then
    some [("error", .str "ValidationError"),
          ("message", .str "severity must be one of: critical, high, low, medium")]
  else if hasKey payload "tags" && !isJList (alookup payload "tags") then
    some [("error", .str "ValidationError"),
          ("message", .str "tags must be a list of strings")]
  else
    none

/-- The `item` dict built by `create_incident/handler.py::lambda_handler`
from a validated payload, a fresh UUID and the current timestamp; `tags`
is appended only when present in the payload. -/
def create_item (payload : JObj) (incident_id created_at : String) : Item :=
  let base : Item :=
    [("incident_id", .str incident_id),
     ("title", .str (pyStrip (jStrOrEmpty (alookup payload "title")))),
     ("description", .str (pyStrip (jStrOrEmpty (alookup payload "description")))),
     ("severity", (alookup payload "severity").getD .null),
     ("reported_by", .str (pyStrip (jStrOrEmpty (alookup payload "reported_by")))),
     ("created_at", .str created_at),
     ("status", .str "open")]
  match alookup payload "tags" with
  | some tags => base ++ [("tags", tags)]
  | none => base

/-- `create_incident/handler.py::lambda_handler`.  `incident_id` is the
fresh `str(uuid.uuid4())`, `created_at` the current UTC timestamp; `dbFault`
and `snsFault` inject exogenous DynamoDB / SNS failures (with their
`str(exc)`).  Returns the response together with the table state after. -/
def create_lambda_handler (event : Event) (incident_id created_at : String)
    (dbFault snsFault : Option String) (store : Store) : Response × Store :=
  if is_options_request event then (build_response 204 [], store)
  else if !(event.httpMethod == some "POST") then
    (build_response 405 [("error", .str "MethodNotAllowed"),
       ("message", .str "Only POST is supported for this resource")], store)
  else
    match parse_json_body event with
    | .error msg =>
      (build_response 400 [("error", .str "BadRequest"), ("message", .str msg)], store)
    | .ok payload =>
      match create_validate_payload payload with
      | some errorBody => (build_response 400 errorBody, store)
      | none =>
        let item := create_item payload incident_id created_at
        let putResult : Except DBError Store :=
          match dbFault with
          | some d => .error (.clientError d)
          | none => put_incident_item item store
        match putResult with
        | .error e =>
          (build_response 500 [("error", .str "InternalServerError"),
             ("message", .str "Failed to create incident (DynamoDB)"),
             ("detail", .str e.detail)], store)
        | .ok newStore =>
          match snsFault with
          | some excMsg =>
            (build_response 202 [("incident_id", .str incident_id),
               ("status", .str "created"),
               ("created_at", .str created_at),
               ("warning", .str "Incident stored but notification failed"),
               ("sns_error", .str excMsg)], newStore)
          | none =>
            (build_response 201 [("incident_id", .str incident_id),
               ("status", .str "created"),
               ("created_at", .str created_at)], newStore)

/-- `get_incident/handler.py::lambda_handler`.  `fault` injects an exogenous
DynamoDB `ClientError`.  Pure read: the store is not returned. -/
def get_lambda_handler (event : Event) (fault : Option String) (store : Store) :
    Response :=
  if is_options_request event then build_response 204 []
  else if !(event.httpMethod == some "GET") then
    build_response 405 [("error", .str "MethodNotAllowed"),
      ("message", .str "Only GET is supported for this resource")]
  else
    let incident_id := (alookup (event.pathParameters.getD []) "id").getD ""
    if incident_id.isEmpty then
      build_response 400 [("error", .str "BadRequest"),
        ("message", .str "Path parameter 'id' is required")]
    else
      match fault with
      | some d =>
        build_response 500 [("error", .str "InternalServerError"),
          ("message", .str "Failed to fetch incident"), ("detail", .str d)]
      | none =>
        let item := (get_incident_item incident_id store).getD []
        if item.isEmpty then
          build_response 404 [("error", .str "NotFound"),
            ("message", .str ("Incident '" ++ incident_id ++ "' not found"))]
        else
          build_response 200 item

/-- `list_incidents/handler.py::lambda_handler`.  `pages` is the store-side
paging of the table that `scan_incidents` walks; `fault` injects an exogenous
DynamoDB `ClientError`. -/
def list_lambda_handler (event : Event) (fault : Option String)
    (pages : List (List Item)) : Response :=
  if is_options_request event then build_response 204 []
  else if !(event.httpMethod == some "GET") then
    build_response 405 [("error", .str "MethodNotAllowed"),
      ("message", .str "Only GET is supported for this resource")]
  else
    match fault with
    | some d =>
      build_response 500 [("error", .str "InternalServerError"),
        ("message", .str "Failed to list incidents"), ("detail", .str d)]
    | none =>
      build_response 200 [("items", .arr ((scan_incidents pages).map JValue.obj))]

/-- `update_incident/handler.py::_validate_payload`. -/
def update_validate_payload (payload : JObj) : Option JObj :=
  if !hasKey payload "status" then
    some [("error", .str "ValidationError"), ("message", .str "status is required")]
  else if !isAllowedStatus (alookup payload "status") then
    some [("error", .str "ValidationError"),
          ("message", .str "status must be one of: closed, in_progress, open, resolved")]
  else
    none

/-- `update_incident/handler.py::lambda_handler`.  `updated_at` is the
current UTC timestamp; `fault` injects an exogenous DynamoDB `ClientError`
(anything other than the conditional-check failure produced by the store
semantics). -/
def update_lambda_handler (event : Event) (updated_at : String)
    (fault : Option String) (store : Store) : Response × Store :=
  if is_options_request event then (build_response 204 [], store)
  else if !(event.httpMethod == some "PATCH" || event.httpMethod == some "PUT") then
    (build_response 405 [("error", .str "MethodNotAllowed"),
       ("message", .str "Only PATCH or PUT is supported for this resource")], store)
  else
    let incident_id := (alookup (event.pathParameters.getD []) "id").getD ""
    if incident_id.isEmpty then
      (build_response 400 [("error", .str "BadRequest"),
         ("message", .str "Path parameter 'id' is required")], store)
    else
      match parse_json_body event with
      | .error msg =>
        (build_response 400 [("error", .str "BadRequest"), ("message", .str msg)], store)
      | .ok payload =>
        match update_validate_payload payload with
        | some errorBody => (build_response 400 errorBody, store)
        | none =>
          let new_status := jStrOrEmpty (alookup payload "status")
          let callResult : Except DBError (Item × Store) :=
            match fault with
            | some d => .error (.clientError d)
            | none => update_incident_status incident_id new_status updated_at store
          match callResult with
          | .error .conditionalCheckFailed =>
            (build_response 404 [("error", .str "NotFound"),
               ("message", .str ("Incident '" ++ incident_id ++ "' not found"))], store)
          | .error (.clientError d) =>
            (build_response 500 [("error", .str "InternalServerError"),
               ("message", .str "Failed to update incident status"),
               ("detail", .str d)], store)
          | .ok (updated_item, newStore) =>
            (build_response 200 updated_item, newStore)

/-- `health_check/handler.py::lambda_handler` (headers written literally in
the source, identical to `build_response`'s). -/
def health_lambda_handler (_event : Event) : Response :=
  ⟨200,
   [("Content-Type", "application/json"),
    ("Access-Control-Allow-Origin", "*"),
    ("Access-Control-Allow-Methods", "OPTIONS,GET,POST,PATCH,PUT,DELETE"),
    ("Access-Control-Allow-Headers", "Content-Type,Authorization")],
   [("status", .str "ok")], false⟩

/-- The items of the table, in store order (what one full scan yields). -/
def storeItems (s : Store) : List Item :=
  s.map Prod.snd

/-! ### Helper lemmas about the store primitives -/

lemma scanLoop_eq_append_flatten (pages : List (List Item)) :
    ∀ acc : List Item, scanLoop pages acc = acc ++ pages.flatten := by
  induction pages with
  | nil => intro acc; simp [scanLoop]
  | cons page rest ih => intro acc; simp [scanLoop, ih, List.append_assoc]

/-- The scan loop accumulates exactly the concatenation of the pages. -/
lemma scan_incidents_eq_flatten (pages : List (List Item)) :
    scan_incidents pages = pages.flatten := by
  simp [scan_incidents, scanLoop_eq_append_flatten]

/-- Any fixed-size paging concatenates back to the original record list. -/
lemma paginate_flatten {α : Type} (n : Nat) (l : List α) :
    (paginate n l).flatten = l := by
  have H : ∀ (len : Nat) (l : List α), l.length = len → (paginate n l).flatten = l := by
    intro len
    induction len using Nat.strong_induction_on with
    | _ len ih =>
      intro l hl
      cases l with
      | nil => simp [paginate]
      | cons x xs =>
        rw [paginate, List.flatten_cons]
        have hdrop : ((x :: xs).drop (n + 1)).length < len := by
          subst hl; simp only [List.length_drop, List.length_cons]; omega
        rw [ih _ hdrop _ rfl, List.take_append_drop]
  exact H l.length l rfl

lemma getAttr_setAttr (item : Item) (k : String) (v : JValue) (k2 : String) :
    getAttr (setAttr item k v) k2 = if k = k2 then some v else getAttr item k2 := by
  induction item with
  | nil => simp [setAttr, getAttr, alookup]
  | cons kv rest ih =>
    obtain ⟨k1, v1⟩ := kv
    by_cases h : k1 = k
    · subst h
      simp only [setAttr, if_pos rfl, getAttr, alookup]
      by_cases h2 : k1 = k2 <;> simp [h2]
    · simp only [setAttr, if_neg h, getAttr, alookup]
      by_cases h2 : k1 = k2
      · subst h2
        have hne : k ≠ k1 := fun hk => h hk.symm
        simp [hne]
      · simp only [if_neg h2]
        rw [getAttr] at ih
        rw [ih]
        by_cases h3 : k = k2 <;> simp [h3, h2, getAttr]

lemma alookup_replaceEntry_ne (s : Store) (id : String) (it : Item)
    (k : String) (h : k ≠ id) :
    alookup (replaceEntry s id it) k = alookup s k := by
  induction s with
  | nil => simp [replaceEntry]
  | cons kv rest ih =>
    obtain ⟨k1, it1⟩ := kv
    by_cases h1 : k1 = id
    · have hIdK : ¬(id = k) := fun hk => h hk.symm
      have hK1K : ¬(k1 = k) := by rw [h1]; exact hIdK
      simp only [replaceEntry, if_pos h1, alookup, if_neg hIdK, if_neg hK1K]
    · simp only [replaceEntry, if_neg h1, alookup]
      by_cases h2 : k1 = k
      · simp [h2]
      · simp [h2, ih]

lemma alookup_replaceEntry_eq (s : Store) (id : String) (it : Item)
    (h : (alookup s id).isSome) :
    alookup (replaceEntry s id it) id = some it := by
  induction s with
  | nil => simp [alookup] at h
  | cons kv rest ih =>
    obtain ⟨k1, it1⟩ := kv
    by_cases h1 : k1 = id
    · simp [replaceEntry, if_pos h1, alookup]
    · simp only [alookup, if_neg h1] at h
      simp only [replaceEntry, if_neg h1, alookup, if_neg h1]
      exact ih h

/-- Complete attribute characterization of the item built by create. -/
lemma getAttr_create_item (p : JObj) (nid ts : String) (k : String) :
    getAttr (create_item p nid ts) k =
      if "incident_id" = k then some (.str nid)
      else if "title" = k then some (.str (pyStrip (jStrOrEmpty (alookup p "title"))))
      else if "description" = k then
        some (.str (pyStrip (jStrOrEmpty (alookup p "description"))))
      else if "severity" = k then some ((alookup p "severity").getD .null)
      else if "reported_by" = k then
        some (.str (pyStrip (jStrOrEmpty (alookup p "reported_by"))))
      else if "created_at" = k then some (.str ts)
      else if "status" = k then some (.str "open")
      else if "tags" = k then alookup p "tags"
      else none := by
  unfold create_item
  cases htags : alookup p "tags" with
  | none =>
    simp only [getAttr, alookup, ite_self]
  | some tags =>
    simp only [getAttr, List.cons_append, List.nil_append, alookup]

lemma create_item_ne_nil (p : JObj) (nid ts : String) :
    (create_item p nid ts).isEmpty = false := by
  unfold create_item
  cases alookup p "tags" <;> rfl

/-- A payload that passes create validation has string-shaped required
fields and a list-shaped `tags` when present. -/
lemma create_validate_payload_none (p : JObj)
    (h : create_validate_payload p = none) :
    isNonEmptyStr (alookup p "title") = true
    ∧ isNonEmptyStr (alookup p "description") = true
    ∧ isNonEmptyStr (alookup p "reported_by") = true
    ∧ isAllowedSeverity (alookup p "severity") = true
    ∧ (hasKey p "tags" = true → isJList (alookup p "tags") = true) := by
  refine ⟨?_, ?_, ?_, ?_, ?_⟩
  · by_contra hc
    rw [Bool.not_eq_true] at hc
    simp [create_validate_payload, hc] at h
    repeat' split at h
    all_goals simp at h
  · by_contra hc
    rw [Bool.not_eq_true] at hc
    simp [create_validate_payload, hc] at h
    repeat' split at h
    all_goals simp at h
  · by_contra hc
    rw [Bool.not_eq_true] at hc
    simp [create_validate_payload, hc] at h
    repeat' split at h
    all_goals simp at h
  · by_contra hc
    rw [Bool.not_eq_true] at hc
    simp [create_validate_payload, hc] at h
    repeat' split at h
    all_goals simp at h
  · intro htags
    by_contra hc
    rw [Bool.not_eq_true] at hc
    simp [create_validate_payload, htags, hc] at h
    repeat' split at h
    all_goals simp at h

lemma isNonEmptyStr_shape {o : Option JValue} (h : isNonEmptyStr o = true) :
    ∃ s : String, o = some (.str s) ∧ pyStrip s ≠ "" := by
  match o with
  | some (.str s) =>
    refine ⟨s, rfl, ?_⟩
    have h2 : (pyStrip s).isEmpty = false := by simpa [isNonEmptyStr] using h
    intro hs
    rw [hs] at h2
    exact absurd h2 (by decide)
  | some (.num _) | some (.bool _) | some .null | some (.arr _) | some (.obj _)
  | none => simp [isNonEmptyStr] at h

lemma isAllowedSeverity_shape {o : Option JValue} (h : isAllowedSeverity o = true) :
    ∃ s : String, o = some (.str s)
      ∧ s ∈ (["low", "medium", "high", "critical"] : List String) := by
  match o with
  | some (.str s) =>
    refine ⟨s, rfl, ?_⟩
    simpa [isAllowedSeverity] using h
  | some (.num _) | some (.bool _) | some .null | some (.arr _) | some (.obj _)
  | none => simp [isAllowedSeverity] at h

/-- A payload that passes update validation carries an allowed status string. -/
lemma update_validate_payload_none (p : JObj)
    (h : update_validate_payload p = none) :
    ∃ s : String, alookup p "status" = some (.str s)
      ∧ s ∈ (["open", "in_progress", "resolved", "closed"] : List String) := by
  have ha : isAllowedStatus (alookup p "status") = true := by
    by_contra hc
    rw [Bool.not_eq_true] at hc
    simp [update_validate_payload, hc] at h
    repeat' split at h
    all_goals simp at h
  match ho : alookup p "status" with
  | some (.str s) =>
    refine ⟨s, rfl, ?_⟩
    rw [ho] at ha
    simpa [isAllowedStatus] using ha
  | some (.num _) | some (.bool _) | some .null | some (.arr _) | some (.obj _) =>
    rw [ho] at ha; simp [isAllowedStatus] at ha
  | none =>
    rw [ho] at ha; simp [isAllowedStatus] at ha

lemma isEmpty_false_of_ne {s : String} (h : s ≠ "") : s.isEmpty = false := by
  rw [← Bool.not_eq_true]
  intro hc
  exact h ((String.isEmpty_iff s).mp hc)

lemma empty_isEmpty : ("" : String).isEmpty = true := rfl

lemma optBeq_false_of_ne {a b : Option String} (h : a ≠ b) : (a == b) = false :=
  beq_eq_false_iff_ne.mpr h

/-! ### Demo fixtures used by concrete witnesses -/

def demoPayload : JObj :=
  [("title", .str " Server down "), ("description", .str "API times out"),
   ("severity", .str "high"), ("reported_by", .str "ops"),
   ("tags", .arr [.str "api"])]

def demoCreateEvent : Event := ⟨some "POST", none, .json demoPayload⟩

def demoItem : Item := create_item demoPayload "id-1" "2024-01-01T00:00:00+00:00"

def demoUpdateEvent : Event :=
  ⟨some "PATCH", some [("id", "id-1")], .json [("status", .str "resolved")]⟩

/-! ### Claim theorems -/

/-- C8: For every inbound event whose `httpMethod` is `OPTIONS`, every handler
(create, get, list, update) returns status 204 with an empty body, regardless of
path parameters, body content, store state or the collaborators (the result is a
fixed constant and the store is returned untouched), so no store or publisher
access is performed. -/
theorem options_preflight_short_circuit (event : Event)
    (h : event.httpMethod = some "OPTIONS") :
    (∀ nid ts dbF snsF store,
       create_lambda_handler event nid ts dbF snsF store = (build_response 204 [], store))
    ∧ (∀ fault store, get_lambda_handler event fault store = build_response 204 [])
    ∧ (∀ fault pages, list_lambda_handler event fault pages = build_response 204 [])
    ∧ (∀ ts fault store,
       update_lambda_handler event ts fault store = (build_response 204 [], store)) := by
  have hopt : is_options_request event = true := by simp [is_options_request, h]
  refine ⟨?_, ?_, ?_, ?_⟩ <;> intros <;>
    simp [create_lambda_handler, get_lambda_handler, list_lambda_handler,
          update_lambda_handler, hopt]

theorem options_preflight_short_circuit_witness :
    create_lambda_handler ⟨some "OPTIONS", none, .missing⟩ "id-1" "t0" none none [] =
      (build_response 204 [], [])
    ∧ update_lambda_handler ⟨some "OPTIONS", some [("id", "id-1")], .missing⟩ "t1" none [] =
      (build_response 204 [], []) :=
  ⟨(options_preflight_short_circuit ⟨some "OPTIONS", none, .missing⟩ rfl).1
     "id-1" "t0" none none [],
   (options_preflight_short_circuit ⟨some "OPTIONS", some [("id", "id-1")], .missing⟩
     rfl).2.2.2 "t1" none []⟩

/-- C4: For every store state and any paging of its records by the underlying
store (in particular any fixed page size), the list handler returns 200 with
`{items: [...]}` holding exactly the store's records — the concatenation of all
pages followed until exhausted — so every record appears exactly once,
independent of the page size. -/
theorem list_returns_every_record :
    (∀ (event : Event) (store : Store) (pages : List (List Item)),
       event.httpMethod = some "GET" → pages.flatten = storeItems store →
       list_lambda_handler event none pages =
         build_response 200 [("items", .arr ((storeItems store).map JValue.obj))])
    ∧ (∀ (n : Nat) (l : List Item), (paginate n l).flatten = l)
    ∧ (∀ (event : Event) (store : Store) (n : Nat),
       event.httpMethod = some "GET" →
       list_lambda_handler event none (paginate n (storeItems store)) =
         build_response 200 [("items", .arr ((storeItems store).map JValue.obj))]) := by
  have main : ∀ (event : Event) (store : Store) (pages : List (List Item)),
      event.httpMethod = some "GET" → pages.flatten = storeItems store →
      list_lambda_handler event none pages =
        build_response 200 [("items", .arr ((storeItems store).map JValue.obj))] := by
    intro event store pages hm hjoin
    have hopt : is_options_request event = false := by
      simp [is_options_request, hm]
    simp [list_lambda_handler, hopt, hm, scan_incidents_eq_flatten, hjoin]
  exact ⟨main, fun n l => paginate_flatten n l,
    fun event store n hm => main event store _ hm (paginate_flatten n (storeItems store))⟩

theorem list_returns_every_record_witness :
    list_lambda_handler ⟨some "GET", none, .missing⟩ none
        (paginate 0 (storeItems [("id-1", demoItem), ("id-2", demoItem)])) =
      build_response 200
        [("items", .arr ((storeItems [("id-1", demoItem), ("id-2", demoItem)]).map JValue.obj))] :=
  list_returns_every_record.2.2 ⟨some "GET", none, .missing⟩
    [("id-1", demoItem), ("id-2", demoItem)] 0 rfl

/-- C3: A valid update-status request (right method, nonempty path id, valid
body) whose id is absent from the store yields 404 `NotFound` with the store
unchanged; any other (injected) store-layer failure yields 500
`InternalServerError` carrying a `detail` field, on every operation. -/
theorem update_notfound_and_store_failures :
    (∀ (m id updated_at : String) (pp : List (String × String)) (payload : JObj)
       (store : Store),
       (m = "PATCH" ∨ m = "PUT") → alookup pp "id" = some id → id ≠ "" →
       update_validate_payload payload = none → alookup store id = none →
       update_lambda_handler ⟨some m, some pp, .json payload⟩ updated_at none store =
         (build_response 404 [("error", .str "NotFound"),
            ("message", .str ("Incident '" ++ id ++ "' not found"))], store))
    ∧ (∀ (m id updated_at d : String) (pp : List (String × String)) (payload : JObj)
       (store : Store),
       (m = "PATCH" ∨ m = "PUT") → alookup pp "id" = some id → id ≠ "" →
       update_validate_payload payload = none →
       update_lambda_handler ⟨some m, some pp, .json payload⟩ updated_at (some d) store =
         (build_response 500 [("error", .str "InternalServerError"),
            ("message", .str "Failed to update incident status"),
            ("detail", .str d)], store))
    ∧ (∀ (event : Event) (payload : JObj) (nid ts d : String) (snsF : Option String)
       (store : Store),
       event.httpMethod = some "POST" → event.body = .json payload →
       create_validate_payload payload = none →
       create_lambda_handler event nid ts (some d) snsF store =
         (build_response 500 [("error", .str "InternalServerError"),
            ("message", .str "Failed to create incident (DynamoDB)"),
            ("detail", .str d)], store))
    ∧ (∀ (id d : String) (pp : List (String × String)) (store : Store),
       alookup pp "id" = some id → id ≠ "" →
       get_lambda_handler ⟨some "GET", some pp, .missing⟩ (some d) store =
         build_response 500 [("error", .str "InternalServerError"),
           ("message", .str "Failed to fetch incident"), ("detail", .str d)])
    ∧ (∀ (d : String) (event : Event) (pages : List (List Item)),
       event.httpMethod = some "GET" →
       list_lambda_handler event (some d) pages =
         build_response 500 [("error", .str "InternalServerError"),
           ("message", .str "Failed to list incidents"), ("detail", .str d)]) := by
  refine ⟨?_, ?_, ?_, ?_, ?_⟩
  · intro m id updated_at pp payload store hm hpp hid hv hstore
    rcases hm with h | h <;> subst h <;>
      simp [update_lambda_handler, is_options_request, parse_json_body, hpp,
            isEmpty_false_of_ne hid, hv, update_incident_status, hstore]
  · intro m id updated_at d pp payload store hm hpp hid hv
    rcases hm with h | h <;> subst h <;>
      simp [update_lambda_handler, is_options_request, parse_json_body, hpp,
            isEmpty_false_of_ne hid, hv]
  · intro event payload nid ts d snsF store hpost hbody hv
    have hopt : is_options_request event = false := by
      simp [is_options_request, hpost]
    simp [create_lambda_handler, hopt, hpost, parse_json_body, hbody, hv,
          DBError.detail]
  · intro id d pp store hpp hid
    simp [get_lambda_handler, is_options_request, hpp, isEmpty_false_of_ne hid]
  · intro d event pages hm
    have hopt : is_options_request event = false := by
      simp [is_options_request, hm]
    simp [list_lambda_handler, hopt, hm]

theorem update_notfound_and_store_failures_witness :
    update_lambda_handler
        ⟨some "PATCH", some [("id", "ghost")], .json [("status", .str "resolved")]⟩
        "t1" none [] =
      (build_response 404 [("error", .str "NotFound"),
         ("message", .str "Incident 'ghost' not found")], [])
    ∧ update_lambda_handler
        ⟨some "PUT", some [("id", "id-1")], .json [("status", .str "open")]⟩
        "t1" (some "boom") [] =
      (build_response 500 [("error", .str "InternalServerError"),
         ("message", .str "Failed to update incident status"),
         ("detail", .str "boom")], [])
    ∧ create_lambda_handler demoCreateEvent "id-1" "t0" (some "db down") none [] =
      (build_response 500 [("error", .str "InternalServerError"),
         ("message", .str "Failed to create incident (DynamoDB)"),
         ("detail", .str "db down")], [])
    ∧ get_lambda_handler ⟨some "GET", some [("id", "id-1")], .missing⟩ (some "oops") [] =
      build_response 500 [("error", .str "InternalServerError"),
        ("message", .str "Failed to fetch incident"), ("detail", .str "oops")]
    ∧ list_lambda_handler ⟨some "GET", none, .missing⟩ (some "err") [] =
      build_response 500 [("error", .str "InternalServerError"),
        ("message", .str "Failed to list incidents"), ("detail", .str "err")] := by
  refine ⟨?_, ?_, ?_, ?_, ?_⟩
  · exact update_notfound_and_store_failures.1 "PATCH" "ghost" "t1" [("id", "ghost")]
      [("status", .str "resolved")] [] (Or.inl rfl) rfl (by decide) rfl rfl
  · exact update_notfound_and_store_failures.2.1 "PUT" "id-1" "t1" "boom" [("id", "id-1")]
      [("status", .str "open")] [] (Or.inr rfl) rfl (by decide) rfl
  · exact update_notfound_and_store_failures.2.2.1 demoCreateEvent demoPayload
      "id-1" "t0" "db down" none [] rfl rfl rfl
  · exact update_notfound_and_store_failures.2.2.2.1 "id-1" "oops" [("id", "id-1")] []
      rfl (by decide)
  · exact update_notfound_and_store_failures.2.2.2.2 "err" ⟨some "GET", none, .missing⟩
      [] rfl

/-- C7: Requests rejected before the store step — wrong method (405
`MethodNotAllowed`), missing/empty path id (400 `BadRequest`), missing or
unparseable body (400 `BadRequest`), payload failing validation (400
`ValidationError` bodies from the validators) — produce a response that does
not depend on the store or the injected collaborator faults, and leave the
store unchanged: no store read or write is performed. -/
theorem prestore_rejections_no_store_access :
    (∀ (event : Event) (ts : String) (fault : Option String) (store : Store),
       event.httpMethod ≠ some "OPTIONS" → event.httpMethod ≠ some "PATCH" →
       event.httpMethod ≠ some "PUT" →
       update_lambda_handler event ts fault store =
         (build_response 405 [("error", .str "MethodNotAllowed"),
            ("message", .str "Only PATCH or PUT is supported for this resource")], store))
    ∧ (∀ (event : Event) (ts : String) (fault : Option String) (store : Store),
       (event.httpMethod = some "PATCH" ∨ event.httpMethod = some "PUT") →
       (alookup (event.pathParameters.getD []) "id").getD "" = "" →
       update_lambda_handler event ts fault store =
         (build_response 400 [("error", .str "BadRequest"),
            ("message", .str "Path parameter 'id' is required")], store))
    ∧ (∀ (event : Event) (ts msg : String) (fault : Option String) (store : Store),
       (event.httpMethod = some "PATCH" ∨ event.httpMethod = some "PUT") →
       (alookup (event.pathParameters.getD []) "id").getD "" ≠ "" →
       parse_json_body event = .error msg →
       update_lambda_handler event ts fault store =
         (build_response 400 [("error", .str "BadRequest"),
            ("message", .str msg)], store))
    ∧ (∀ (event : Event) (ts : String) (fault : Option String) (store : Store)
       (payload errBody : JObj),
       (event.httpMethod = some "PATCH" ∨ event.httpMethod = some "PUT") →
       (alookup (event.pathParameters.getD []) "id").getD "" ≠ "" →
       event.body = .json payload → update_validate_payload payload = some errBody →
       update_lambda_handler event ts fault store = (build_response 400 errBody, store))
    ∧ (∀ (event : Event) (nid ts : String) (dbF snsF : Option String) (store : Store),
       event.httpMethod ≠ some "OPTIONS" → event.httpMethod ≠ some "POST" →
       create_lambda_handler event nid ts dbF snsF store =
         (build_response 405 [("error", .str "MethodNotAllowed"),
            ("message", .str "Only POST is supported for this resource")], store))
    ∧ (∀ (event : Event) (nid ts msg : String) (dbF snsF : Option String) (store : Store),
       event.httpMethod = some "POST" → parse_json_body event = .error msg →
       create_lambda_handler event nid ts dbF snsF store =
         (build_response 400 [("error", .str "BadRequest"),
            ("message", .str msg)], store))
    ∧ (∀ (event : Event) (nid ts : String) (dbF snsF : Option String) (store : Store)
       (payload errBody : JObj),
       event.httpMethod = some "POST" → event.body = .json payload →
       create_validate_payload payload = some errBody →
       create_lambda_handler event nid ts dbF snsF store =
         (build_response 400 errBody, store))
    ∧ (∀ (event : Event) (fault : Option String) (store : Store),
       event.httpMethod ≠ some "OPTIONS" → event.httpMethod ≠ some "GET" →
       get_lambda_handler event fault store =
         build_response 405 [("error", .str "MethodNotAllowed"),
           ("message", .str "Only GET is supported for this resource")])
    ∧ (∀ (event : Event) (fault : Option String) (store : Store),
       event.httpMethod = some "GET" →
       (alookup (event.pathParameters.getD []) "id").getD "" = "" →
       get_lambda_handler event fault store =
         build_response 400 [("error", .str "BadRequest"),
           ("message", .str "Path parameter 'id' is required")])
    ∧ (∀ (event : Event) (fault : Option String) (pages : List (List Item)),
       event.httpMethod ≠ some "OPTIONS" → event.httpMethod ≠ some "GET" →
       list_lambda_handler event fault pages =
         build_response 405 [("error", .str "MethodNotAllowed"),
           ("message", .str "Only GET is supported for this resource")]) := by
  refine ⟨?_, ?_, ?_, ?_, ?_, ?_, ?_, ?_, ?_, ?_⟩
  · intro event ts fault store hopt hpatch hput
    simp [update_lambda_handler, is_options_request, optBeq_false_of_ne hopt,
          optBeq_false_of_ne hpatch, optBeq_false_of_ne hput]
  · intro event ts fault store hm hid0
    rcases hm with h | h <;>
      simp [update_lambda_handler, is_options_request, h, hid0, empty_isEmpty]
  · intro event ts msg fault store hm hid hparse
    rcases hm with h | h <;>
      simp [update_lambda_handler, is_options_request, h,
            isEmpty_false_of_ne hid, hparse]
  · intro event ts fault store payload errBody hm hid hbody hv
    rcases hm with h | h <;>
      simp [update_lambda_handler, is_options_request, h,
            isEmpty_false_of_ne hid, parse_json_body, hbody, hv]
  · intro event nid ts dbF snsF store hopt hpost
    simp [create_lambda_handler, is_options_request, optBeq_false_of_ne hopt,
          optBeq_false_of_ne hpost]
  · intro event nid ts msg dbF snsF store hpost hparse
    have hopt : is_options_request event = false := by
      simp [is_options_request, hpost]
    simp [create_lambda_handler, hopt, hpost, hparse]
  · intro event nid ts dbF snsF store payload errBody hpost hbody hv
    have hopt : is_options_request event = false := by
      simp [is_options_request, hpost]
    simp [create_lambda_handler, hopt, hpost, parse_json_body, hbody, hv]
  · intro event fault store hopt hget
    simp [get_lambda_handler, is_options_request, optBeq_false_of_ne hopt,
          optBeq_false_of_ne hget]
  · intro event fault store hget hid0
    have hopt : is_options_request event = false := by
      simp [is_options_request, hget]
    simp [get_lambda_handler, hopt, hget, hid0, empty_isEmpty]
  · intro event fault pages hopt hget
    simp [list_lambda_handler, is_options_request, optBeq_false_of_ne hopt,
          optBeq_false_of_ne hget]

theorem prestore_rejections_no_store_access_witness :
    update_lambda_handler ⟨some "DELETE", some [("id", "id-1")], .missing⟩ "t1" none
        [("id-1", demoItem)] =
      (build_response 405 [("error", .str "MethodNotAllowed"),
         ("message", .str "Only PATCH or PUT is supported for this resource")],
       [("id-1", demoItem)])
    ∧ update_lambda_handler ⟨some "PATCH", none, .json [("status", .str "open")]⟩
        "t1" none [] =
      (build_response 400 [("error", .str "BadRequest"),
         ("message", .str "Path parameter 'id' is required")], [])
    ∧ update_lambda_handler ⟨some "PUT", some [("id", "id-1")], .missing⟩ "t1" none [] =
      (build_response 400 [("error", .str "BadRequest"),
         ("message", .str "Request body is required")], [])
    ∧ update_lambda_handler
        ⟨some "PATCH", some [("id", "id-1")], .json [("status", .str "bogus")]⟩
        "t1" none [] =
      (build_response 400 [("error", .str "ValidationError"),
         ("message", .str "status must be one of: closed, in_progress, open, resolved")], [])
    ∧ create_lambda_handler ⟨some "DELETE", none, .missing⟩ "id-9" "t0" none none [] =
      (build_response 405 [("error", .str "MethodNotAllowed"),
         ("message", .str "Only POST is supported for this resource")], [])
    ∧ create_lambda_handler ⟨some "POST", none, .malformed⟩ "id-9" "t0" none none [] =
      (build_response 400 [("error", .str "BadRequest"),
         ("message", .str "Request body must be valid JSON")], [])
    ∧ create_lambda_handler ⟨some "POST", none, .json [("title", .str "x")]⟩
        "id-9" "t0" none none [] =
      (build_response 400 [("error", .str "ValidationError"),
         ("message", .str "Missing fields: description, severity, reported_by")], [])
    ∧ get_lambda_handler ⟨some "POST", none, .missing⟩ none [] =
      build_response 405 [("error", .str "MethodNotAllowed"),
        ("message", .str "Only GET is supported for this resource")]
    ∧ get_lambda_handler ⟨some "GET", none, .missing⟩ none [] =
      build_response 400 [("error", .str "BadRequest"),
        ("message", .str "Path parameter 'id' is required")]
    ∧ list_lambda_handler ⟨some "DELETE", none, .missing⟩ none [] =
      build_response 405 [("error", .str "MethodNotAllowed"),
        ("message", .str "Only GET is supported for this resource")] := by
  refine ⟨?_, ?_, ?_, ?_, ?_, ?_, ?_, ?_, ?_, ?_⟩
  · exact prestore_rejections_no_store_access.1
      ⟨some "DELETE", some [("id", "id-1")], .missing⟩ "t1" none [("id-1", demoItem)]
      (by decide) (by decide) (by decide)
  · exact prestore_rejections_no_store_access.2.1
      ⟨some "PATCH", none, .json [("status", .str "open")]⟩ "t1" none []
      (Or.inl rfl) rfl
  · exact prestore_rejections_no_store_access.2.2.1
      ⟨some "PUT", some [("id", "id-1")], .missing⟩ "t1" "Request body is required" none []
      (Or.inr rfl) (by decide) rfl
  · exact prestore_rejections_no_store_access.2.2.2.1
      ⟨some "PATCH", some [("id", "id-1")], .json [("status", .str "bogus")]⟩ "t1" none []
      [("status", .str "bogus")]
      [("error", .str "ValidationError"),
       ("message", .str "status must be one of: closed, in_progress, open, resolved")]
      (Or.inl rfl) (by decide) rfl rfl
  · exact prestore_rejections_no_store_access.2.2.2.2.1
      ⟨some "DELETE", none, .missing⟩ "id-9" "t0" none none []
      (by decide) (by decide)
  · exact prestore_rejections_no_store_access.2.2.2.2.2.1
      ⟨some "POST", none, .malformed⟩ "id-9" "t0" "Request body must be valid JSON"
      none none [] rfl rfl
  · exact prestore_rejections_no_store_access.2.2.2.2.2.2.1
      ⟨some "POST", none, .json [("title", .str "x")]⟩ "id-9" "t0" none none []
      [("title", .str "x")]
      [("error", .str "ValidationError"),
       ("message", .str "Missing fields: description, severity, reported_by")]
      rfl rfl rfl
  · exact prestore_rejections_no_store_access.2.2.2.2.2.2.2.1
      ⟨some "POST", none, .missing⟩ none [] (by decide) (by decide)
  · exact prestore_rejections_no_store_access.2.2.2.2.2.2.2.2.1
      ⟨some "GET", none, .missing⟩ none [] rfl rfl
  · exact prestore_rejections_no_store_access.2.2.2.2.2.2.2.2.2
      ⟨some "DELETE", none, .missing⟩ none [] (by decide) (by decide)

/-- C1: A create request whose JSON payload passes validation (run with a
fresh generated id and with both collaborators healthy) returns 201 with body
exactly `{incident_id, status: "created", created_at}`, and a subsequent get
on that id returns 200 with a stored record whose `title`, `description` and
`reported_by` are the stripped payload values, whose `severity` and `tags`
match the payload, whose `status` is `"open"` and whose `created_at` equals
the one in the create response. -/
theorem create_then_get_roundtrip
    (event : Event) (payload : JObj) (incident_id created_at : String) (store : Store)
    (hpost : event.httpMethod = some "POST")
    (hbody : event.body = .json payload)
    (hvalid : create_validate_payload payload = none)
    (hfresh : alookup store incident_id = none)
    (hid : incident_id ≠ "") :
    let r := create_lambda_handler event incident_id created_at none none store
    let g := get_lambda_handler ⟨some "GET", some [("id", incident_id)], .missing⟩ none r.2
    r.1 = build_response 201
        [("incident_id", .str incident_id), ("status", .str "created"),
         ("created_at", .str created_at)]
    ∧ g.statusCode = 200
    ∧ (∃ s, alookup payload "title" = some (.str s)
        ∧ getAttr g.body "title" = some (.str (pyStrip s)))
    ∧ (∃ s, alookup payload "description" = some (.str s)
        ∧ getAttr g.body "description" = some (.str (pyStrip s)))
    ∧ (∃ s, alookup payload "reported_by" = some (.str s)
        ∧ getAttr g.body "reported_by" = some (.str (pyStrip s)))
    ∧ getAttr g.body "severity" = alookup payload "severity"
    ∧ getAttr g.body "tags" = alookup payload "tags"
    ∧ getAttr g.body "status" = some (.str "open")
    ∧ getAttr g.body "created_at" = some (.str created_at) := by
  obtain ⟨hT, hD, hR, hS, _⟩ := create_validate_payload_none payload hvalid
  obtain ⟨tS, htS, _⟩ := isNonEmptyStr_shape hT
  obtain ⟨dS, hdS, _⟩ := isNonEmptyStr_shape hD
  obtain ⟨rS, hrS, _⟩ := isNonEmptyStr_shape hR
  obtain ⟨sS, hsS, _⟩ := isAllowedSeverity_shape hS
  have hopt : is_options_request event = false := by simp [is_options_request, hpost]
  have hkey : getAttr (create_item payload incident_id created_at) "incident_id" =
      some (.str incident_id) := by
    simpa using getAttr_create_item payload incident_id created_at "incident_id"
  have hput : put_incident_item (create_item payload incident_id created_at) store =
      .ok ((incident_id, create_item payload incident_id created_at) :: store) := by
    simp [put_incident_item, hkey, hfresh]
  have hcreate : create_lambda_handler event incident_id created_at none none store =
      (build_response 201
         [("incident_id", .str incident_id), ("status", .str "created"),
          ("created_at", .str created_at)],
       (incident_id, create_item payload incident_id created_at) :: store) := by
    simp [create_lambda_handler, hopt, hpost, parse_json_body, hbody, hvalid, hput]
  have hget : get_lambda_handler ⟨some "GET", some [("id", incident_id)], .missing⟩ none
      ((incident_id, create_item payload incident_id created_at) :: store) =
      build_response 200 (create_item payload incident_id created_at) := by
    simp [get_lambda_handler, is_options_request, alookup, isEmpty_false_of_ne hid,
          get_incident_item, create_item_ne_nil]
  refine ⟨?_, ?_, ?_, ?_, ?_, ?_, ?_, ?_, ?_⟩
  · rw [hcreate]
  · rw [hcreate]
    simp only [hget, build_response]
  · refine ⟨tS, htS, ?_⟩
    rw [hcreate]
    simp only [hget, build_response]
    have := getAttr_create_item payload incident_id created_at "title"
    simpa [htS, jStrOrEmpty] using this
  · refine ⟨dS, hdS, ?_⟩
    rw [hcreate]
    simp only [hget, build_response]
    have := getAttr_create_item payload incident_id created_at "description"
    simpa [hdS, jStrOrEmpty] using this
  · refine ⟨rS, hrS, ?_⟩
    rw [hcreate]
    simp only [hget, build_response]
    have := getAttr_create_item payload incident_id created_at "reported_by"
    simpa [hrS, jStrOrEmpty] using this
  · rw [hcreate]
    simp only [hget, build_response]
    have := getAttr_create_item payload incident_id created_at "severity"
    simpa [hsS, jStrOrEmpty] using this
  · rw [hcreate]
    simp only [hget, build_response]
    have := getAttr_create_item payload incident_id created_at "tags"
    simpa using this
  · rw [hcreate]
    simp only [hget, build_response]
    have := getAttr_create_item payload incident_id created_at "status"
    simpa using this
  · rw [hcreate]
    simp only [hget, build_response]
    have := getAttr_create_item payload incident_id created_at "created_at"
    simpa using this

theorem create_then_get_roundtrip_witness :
    (create_lambda_handler demoCreateEvent "id-1" "2024-01-01T00:00:00+00:00"
        none none []).1 =
      build_response 201
        [("incident_id", .str "id-1"), ("status", .str "created"),
         ("created_at", .str "2024-01-01T00:00:00+00:00")]
    ∧ (get_lambda_handler ⟨some "GET", some [("id", "id-1")], .missing⟩ none
        (create_lambda_handler demoCreateEvent "id-1" "2024-01-01T00:00:00+00:00"
          none none []).2).statusCode = 200 := by
  have h := create_then_get_roundtrip demoCreateEvent demoPayload "id-1"
    "2024-01-01T00:00:00+00:00" [] rfl rfl rfl rfl (by decide)
  exact ⟨h.1, h.2.1⟩

/-- C2: Updating the status of an existing record with an allowed status value
changes only that record's `status` and `updated_at` attributes (every other
attribute, `created_at` included, and every other record in the store keep
their values), and the handler returns 200 with the full updated record. -/
theorem update_status_frame
    (m id new_status updated_at : String) (pp : List (String × String))
    (payload : JObj) (store : Store) (item : Item)
    (hm : m = "PATCH" ∨ m = "PUT")
    (hpp : alookup pp "id" = some id) (hid : id ≠ "")
    (hstatus : alookup payload "status" = some (.str new_status))
    (hvalid : update_validate_payload payload = none)
    (hitem : alookup store id = some item) :
    let r := update_lambda_handler ⟨some m, some pp, .json payload⟩ updated_at none store
    let newItem := setAttr (setAttr item "status" (.str new_status)) "updated_at"
        (.str updated_at)
    r.1 = build_response 200 newItem
    ∧ alookup r.2 id = some newItem
    ∧ getAttr newItem "status" = some (.str new_status)
    ∧ getAttr newItem "updated_at" = some (.str updated_at)
    ∧ (∀ k, k ≠ "status" → k ≠ "updated_at" → getAttr newItem k = getAttr item k)
    ∧ (∀ id2, id2 ≠ id → alookup r.2 id2 = alookup store id2) := by
  intro r newItem
  have hrun : r = (build_response 200 newItem, replaceEntry store id newItem) := by
    show update_lambda_handler _ _ _ _ = _
    rcases hm with h | h <;> subst h <;>
      simp [update_lambda_handler, is_options_request, parse_json_body, hpp,
            isEmpty_false_of_ne hid, hvalid, hstatus, jStrOrEmpty,
            update_incident_status, hitem, newItem]
  refine ⟨?_, ?_, ?_, ?_, ?_, ?_⟩
  · rw [hrun]
  · rw [hrun]
    exact alookup_replaceEntry_eq store id newItem (by rw [hitem]; rfl)
  · show getAttr (setAttr _ "updated_at" _) "status" = _
    simp [getAttr_setAttr]
  · show getAttr (setAttr _ "updated_at" _) "updated_at" = _
    simp [getAttr_setAttr]
  · intro k h1 h2
    show getAttr (setAttr _ "updated_at" _) k = _
    rw [getAttr_setAttr, if_neg (Ne.symm h2), getAttr_setAttr, if_neg (Ne.symm h1)]
  · intro id2 hne
    rw [hrun]
    exact alookup_replaceEntry_ne store id newItem id2 hne

theorem update_status_frame_witness :
    (update_lambda_handler demoUpdateEvent "2024-01-02T00:00:00+00:00" none
        [("id-1", demoItem)]).1 =
      build_response 200 (setAttr (setAttr demoItem "status" (.str "resolved"))
        "updated_at" (.str "2024-01-02T00:00:00+00:00"))
    ∧ getAttr (setAttr (setAttr demoItem "status" (.str "resolved")) "updated_at"
        (.str "2024-01-02T00:00:00+00:00")) "created_at" = getAttr demoItem "created_at" := by
  have h := update_status_frame "PATCH" "id-1" "resolved" "2024-01-02T00:00:00+00:00"
    [("id", "id-1")] [("status", .str "resolved")] [("id-1", demoItem)] demoItem
    (Or.inl rfl) rfl (by decide) rfl rfl rfl
  exact ⟨h.1, h.2.2.2.2.1 "created_at" (by decide) (by decide)⟩

/-- C5: When the store write of a valid create succeeds but the notification
publish fails, the incident stays stored and retrievable (the write is not
rolled back) and the handler returns 202 with `incident_id`, status
`"created"`, `created_at`, a `warning` field, and the publish error detail
(`sns_error`). -/
theorem create_sns_failure_soft_warning
    (event : Event) (payload : JObj) (incident_id created_at e : String) (store : Store)
    (hpost : event.httpMethod = some "POST")
    (hbody : event.body = .json payload)
    (hvalid : create_validate_payload payload = none)
    (hfresh : alookup store incident_id = none)
    (hid : incident_id ≠ "") :
    let r := create_lambda_handler event incident_id created_at none (some e) store
    r.1 = build_response 202
        [("incident_id", .str incident_id), ("status", .str "created"),
         ("created_at", .str created_at),
         ("warning", .str "Incident stored but notification failed"),
         ("sns_error", .str e)]
    ∧ r.2 = (incident_id, create_item payload incident_id created_at) :: store
    ∧ get_incident_item incident_id r.2 =
        some (create_item payload incident_id created_at)
    ∧ get_lambda_handler ⟨some "GET", some [("id", incident_id)], .missing⟩ none r.2 =
        build_response 200 (create_item payload incident_id created_at) := by
  intro r
  have hopt : is_options_request event = false := by simp [is_options_request, hpost]
  have hkey : getAttr (create_item payload incident_id created_at) "incident_id" =
      some (.str incident_id) := by
    simpa using getAttr_create_item payload incident_id created_at "incident_id"
  have hput : put_incident_item (create_item payload incident_id created_at) store =
      .ok ((incident_id, create_item payload incident_id created_at) :: store) := by
    simp [put_incident_item, hkey, hfresh]
  have hrun : r = (build_response 202
      [("incident_id", .str incident_id), ("status", .str "created"),
       ("created_at", .str created_at),
       ("warning", .str "Incident stored but notification failed"),
       ("sns_error", .str e)],
      (incident_id, create_item payload incident_id created_at) :: store) := by
    show create_lambda_handler _ _ _ _ _ _ = _
    simp [create_lambda_handler, hopt, hpost, parse_json_body, hbody, hvalid, hput]
  refine ⟨by rw [hrun], by rw [hrun], ?_, ?_⟩
  · rw [hrun]
    simp [get_incident_item, alookup]
  · rw [hrun]
    simp [get_lambda_handler, is_options_request, alookup, isEmpty_false_of_ne hid,
          get_incident_item, create_item_ne_nil]

theorem create_sns_failure_soft_warning_witness :
    (create_lambda_handler demoCreateEvent "id-1" "2024-01-01T00:00:00+00:00"
        none (some "SNS unavailable") []).1 =
      build_response 202
        [("incident_id", .str "id-1"), ("status", .str "created"),
         ("created_at", .str "2024-01-01T00:00:00+00:00"),
         ("warning", .str "Incident stored but notification failed"),
         ("sns_error", .str "SNS unavailable")]
    ∧ get_incident_item "id-1"
        (create_lambda_handler demoCreateEvent "id-1" "2024-01-01T00:00:00+00:00"
          none (some "SNS unavailable") []).2 =
      some (create_item demoPayload "id-1" "2024-01-01T00:00:00+00:00") := by
  have h := create_sns_failure_soft_warning demoCreateEvent demoPayload "id-1"
    "2024-01-01T00:00:00+00:00" "SNS unavailable" [] rfl rfl rfl rfl (by decide)
  exact ⟨h.1, h.2.2.1⟩

/-- C6 counterexample: a create retried with an `incident_id` already in the
store is answered with error kind `InternalServerError` — identical in `error`
and `message` to any other store failure (here an injected generic fault) and
distinguishable only through `detail` — not with a distinct `AlreadyExists`
kind; the pre-existing record is left unchanged. -/
theorem create_duplicate_reported_as_internal_error :
    (create_lambda_handler demoCreateEvent "id-1" "2024-01-02T00:00:00+00:00" none none
        [("id-1", demoItem)]).1.statusCode = 500
    ∧ getAttr (create_lambda_handler demoCreateEvent "id-1" "2024-01-02T00:00:00+00:00"
        none none [("id-1", demoItem)]).1.body "error" =
      some (.str "InternalServerError")
    ∧ ¬ getAttr (create_lambda_handler demoCreateEvent "id-1" "2024-01-02T00:00:00+00:00"
        none none [("id-1", demoItem)]).1.body "error" =
      some (.str "AlreadyExists")
    ∧ getAttr (create_lambda_handler demoCreateEvent "id-1" "2024-01-02T00:00:00+00:00"
        none none [("id-1", demoItem)]).1.body "error" =
      getAttr (create_lambda_handler demoCreateEvent "id-9" "t9" (some "boom") none
        []).1.body "error"
    ∧ getAttr (create_lambda_handler demoCreateEvent "id-1" "2024-01-02T00:00:00+00:00"
        none none [("id-1", demoItem)]).1.body "message" =
      getAttr (create_lambda_handler demoCreateEvent "id-9" "t9" (some "boom") none
        []).1.body "message"
    ∧ (create_lambda_handler demoCreateEvent "id-1" "2024-01-02T00:00:00+00:00" none none
        [("id-1", demoItem)]).2 = [("id-1", demoItem)] := by
  refine ⟨rfl, rfl, ?_, rfl, rfl, rfl⟩
  intro h
  have h2 : some (JValue.str "InternalServerError") = some (JValue.str "AlreadyExists") := h
  injection h2 with h3
  injection h3 with h4
  exact absurd h4 (by decide)

/-- C6 (amended): when create is attempted with an `incident_id` already
present, the conditional write fails, the store — and so the existing
record — is unchanged, and the failure is surfaced rather than silently
ignored: a 500 `InternalServerError` whose `detail` carries the
conditional-check failure code, the same error kind and message as any other
store failure (not a distinct `AlreadyExists` kind). -/
theorem create_duplicate_conflict_surfaced
    (event : Event) (payload : JObj) (nid ts : String) (store : Store) (old : Item)
    (hpost : event.httpMethod = some "POST")
    (hbody : event.body = .json payload)
    (hvalid : create_validate_payload payload = none)
    (hdup : alookup store nid = some old) :
    let r := create_lambda_handler event nid ts none none store
    r.1 = build_response 500
        [("error", .str "InternalServerError"),
         ("message", .str "Failed to create incident (DynamoDB)"),
         ("detail", .str "ConditionalCheckFailedException")]
    ∧ r.2 = store
    ∧ alookup r.2 nid = some old := by
  intro r
  have hopt : is_options_request event = false := by simp [is_options_request, hpost]
  have hkey : getAttr (create_item payload nid ts) "incident_id" =
      some (.str nid) := by
    simpa using getAttr_create_item payload nid ts "incident_id"
  have hput : put_incident_item (create_item payload nid ts) store =
      .error .conditionalCheckFailed := by
    simp [put_incident_item, hkey, hdup]
  have hrun : r = (build_response 500
      [("error", .str "InternalServerError"),
       ("message", .str "Failed to create incident (DynamoDB)"),
       ("detail", .str "ConditionalCheckFailedException")], store) := by
    show create_lambda_handler _ _ _ _ _ _ = _
    simp [create_lambda_handler, hopt, hpost, parse_json_body, hbody, hvalid, hput,
          DBError.detail]
  refine ⟨by rw [hrun], by rw [hrun], ?_⟩
  rw [hrun]
  exact hdup

theorem create_duplicate_conflict_surfaced_witness :
    (create_lambda_handler demoCreateEvent "id-1" "2024-01-02T00:00:00+00:00" none none
        [("id-1", demoItem)]).1 =
      build_response 500
        [("error", .str "InternalServerError"),
         ("message", .str "Failed to create incident (DynamoDB)"),
         ("detail", .str "ConditionalCheckFailedException")]
    ∧ (create_lambda_handler demoCreateEvent "id-1" "2024-01-02T00:00:00+00:00" none none
        [("id-1", demoItem)]).2 = [("id-1", demoItem)] := by
  have h := create_duplicate_conflict_surfaced demoCreateEvent demoPayload "id-1"
    "2024-01-02T00:00:00+00:00" [("id-1", demoItem)] demoItem rfl rfl rfl rfl
  exact ⟨h.1, h.2.1⟩

/-- C10: For a valid create payload the stored item's key list is exactly
`incident_id, title, description, severity, reported_by, created_at, status`,
plus `tags` exactly when the payload contains `tags`; the handler stores
exactly this item; and the item depends only on the payload's `title`,
`description`, `severity`, `reported_by` and `tags` values, so any
client-supplied `incident_id`, `status`, `created_at`, `updated_at` or other
extra payload keys never reach the stored record. -/
theorem create_item_key_discipline
    (payload : JObj) (nid ts : String)
    (hvalid : create_validate_payload payload = none) :
    ((create_item payload nid ts).map Prod.fst =
      ["incident_id", "title", "description", "severity", "reported_by",
       "created_at", "status"] ++ (if hasKey payload "tags" then ["tags"] else []))
    ∧ (∀ (event : Event) (store : Store) (snsF : Option String),
        event.httpMethod = some "POST" → event.body = .json payload →
        alookup store nid = none →
        (create_lambda_handler event nid ts none snsF store).2 =
          (nid, create_item payload nid ts) :: store)
    ∧ (∀ payload2 : JObj,
        alookup payload2 "title" = alookup payload "title" →
        alookup payload2 "description" = alookup payload "description" →
        alookup payload2 "severity" = alookup payload "severity" →
        alookup payload2 "reported_by" = alookup payload "reported_by" →
        alookup payload2 "tags" = alookup payload "tags" →
        create_item payload2 nid ts = create_item payload nid ts) := by
  refine ⟨?_, ?_, ?_⟩
  · unfold create_item
    cases htags : alookup payload "tags" <;> simp [hasKey, htags]
  · intro event store snsF hpost hbody hfresh
    have hopt : is_options_request event = false := by simp [is_options_request, hpost]
    have hkey : getAttr (create_item payload nid ts) "incident_id" =
        some (.str nid) := by
      simpa using getAttr_create_item payload nid ts "incident_id"
    have hput : put_incident_item (create_item payload nid ts) store =
        .ok ((nid, create_item payload nid ts) :: store) := by
      simp [put_incident_item, hkey, hfresh]
    cases snsF <;>
      simp [create_lambda_handler, hopt, hpost, parse_json_body, hbody, hvalid, hput]
  · intro payload2 h1 h2 h3 h4 h5
    simp [create_item, h1, h2, h3, h4, h5]

theorem create_item_key_discipline_witness :
    (create_item demoPayload "id-1" "t0").map Prod.fst =
      ["incident_id", "title", "description", "severity", "reported_by",
       "created_at", "status", "tags"]
    ∧ create_item (demoPayload ++
        [("incident_id", .str "spoofed"), ("status", .str "closed"),
         ("created_at", .str "1999-01-01"), ("updated_at", .str "1999-01-02"),
         ("extra", .num 7)]) "id-1" "t0" =
      create_item demoPayload "id-1" "t0" := by
  have h := create_item_key_discipline demoPayload "id-1" "t0" rfl
  exact ⟨h.1, h.2.2 _ rfl rfl rfl rfl rfl⟩

/-- Shape required of every response by the error-handling design: the fixed
CORS header set; `error` and `message` fields on every error (4xx/5xx)
response; a `detail` field on every 500 response. -/
def wellShapedResponse (r : Response) : Prop :=
  r.headers = corsHeaders
  ∧ (400 ≤ r.statusCode → hasKey r.body "error" = true ∧ hasKey r.body "message" = true)
  ∧ (r.statusCode = 500 → hasKey r.body "detail" = true)

lemma create_validate_payload_some_shape (p b : JObj)
    (h : create_validate_payload p = some b) :
    hasKey b "error" = true ∧ hasKey b "message" = true := by
  simp only [create_validate_payload] at h
  repeat' split at h
  all_goals
    first
      | (obtain rfl := (Option.some.inj h).symm
         exact ⟨rfl, rfl⟩)
      | simp at h

lemma update_validate_payload_some_shape (p b : JObj)
    (h : update_validate_payload p = some b) :
    hasKey b "error" = true ∧ hasKey b "message" = true := by
  simp only [update_validate_payload] at h
  repeat' split at h
  all_goals
    first
      | (obtain rfl := (Option.some.inj h).symm
         exact ⟨rfl, rfl⟩)
      | simp at h

/-- C9: Every response of every handler carries the fixed header set
(`Content-Type: application/json` and the permissive CORS headers), every
error (status ≥ 400) response body has at least `error` and `message` fields,
and every 500 response body additionally has a `detail` field. -/
theorem responses_cors_and_error_shape :
    (∀ event nid ts dbF snsF store,
       wellShapedResponse (create_lambda_handler event nid ts dbF snsF store).1)
    ∧ (∀ event fault store, wellShapedResponse (get_lambda_handler event fault store))
    ∧ (∀ event fault pages, wellShapedResponse (list_lambda_handler event fault pages))
    ∧ (∀ event ts fault store,
       wellShapedResponse (update_lambda_handler event ts fault store).1)
    ∧ (∀ event, wellShapedResponse (health_lambda_handler event)) := by
  refine ⟨?_, ?_, ?_, ?_, ?_⟩
  · intro event nid ts dbF snsF store
    simp only [create_lambda_handler]
    repeat' split
    all_goals
      first
        | (refine ⟨rfl, ?_, ?_⟩ <;> simp [build_response, hasKey, alookup]
           done)
        | (rename_i heq
           rcases create_validate_payload_some_shape _ _ heq with ⟨he, hm⟩
           exact ⟨rfl, fun _ => ⟨he, hm⟩, by simp [build_response]⟩)
  · intro event fault store
    simp only [get_lambda_handler]
    repeat' split
    all_goals
      refine ⟨rfl, ?_, ?_⟩ <;> simp [build_response, hasKey, alookup]
  · intro event fault pages
    simp only [list_lambda_handler]
    repeat' split
    all_goals
      refine ⟨rfl, ?_, ?_⟩ <;> simp [build_response, hasKey, alookup]
  · intro event ts fault store
    simp only [update_lambda_handler]
    repeat' split
    all_goals
      first
        | (refine ⟨rfl, ?_, ?_⟩ <;> simp [build_response, hasKey, alookup]
           done)
        | (rename_i heq
           rcases update_validate_payload_some_shape _ _ heq with ⟨he, hm⟩
           exact ⟨rfl, fun _ => ⟨he, hm⟩, by simp [build_response]⟩)
  · intro event
    exact ⟨rfl, by simp [health_lambda_handler], by simp [health_lambda_handler]⟩

theorem responses_cors_and_error_shape_witness :
    wellShapedResponse (create_lambda_handler demoCreateEvent "id-1"
      "2024-01-01T00:00:00+00:00" none none []).1
    ∧ wellShapedResponse (get_lambda_handler ⟨some "GET", some [("id", "ghost")],
        .missing⟩ none [])
    ∧ wellShapedResponse (health_lambda_handler demoCreateEvent) :=
  ⟨responses_cors_and_error_shape.1 demoCreateEvent "id-1"
     "2024-01-01T00:00:00+00:00" none none [],
   responses_cors_and_error_shape.2.1 ⟨some "GET", some [("id", "ghost")], .missing⟩
     none [],
   responses_cors_and_error_shape.2.2.2.2 demoCreateEvent⟩
